import Mathlib

/-!
Shallow embedding of the cros-codecs stateless decoder core:
  * `src/decoders/vp8/decoder.rs`  — the VP8 decoder driver (namespace `Vp8`),
  * `src/utils/vaapi.rs`           — the VA-API backend glue (namespace `Vaapi`),
  * `src/decoder/stateless.rs`     — the shared error taxonomy.

Stateful Rust code is embedded as explicit state passing; `&mut` methods
become functions returning a new state.  `panic!` / `unwrap()` / `unreachable!()`
are embedded as a distinguished `panic` outcome which carries the state as
mutated up to the point of the panic (mirroring the in-place mutations already
performed when the Rust code unwinds).  Fallible calls return `Except`-style
outcomes.  The bitstream parser and the hardware backend are external to
these sources (`dyn StatelessDecoderBackend`, `Parser`); they are embedded
as structures of pure oracle functions over abstract state types, and every
theorem about the decoder driver is universally quantified over them.
-/

deriving instance DecidableEq for Except

namespace CrosCodecs

/-- `BlockingMode` from `crate::decoders`: whether decode operations block. -/
inductive BlockingMode where
  | Blocking
  | NonBlocking
deriving DecidableEq, Repr

/-- `Resolution` from the crate root: a `(width, height)` pair. -/
structure Resolution where
  width : Nat
  height : Nat
deriving DecidableEq, Repr

/-- `DecodedFormat` from the crate root: the output pixel formats. -/
inductive DecodedFormat where
  | NV12
  | I420
deriving DecidableEq, Repr

/-- `StatelessBackendError` from `src/decoder/stateless.rs` (lines 18-30).
Error payloads (`anyhow::Error`) are embedded as their display strings. -/
inductive StatelessBackendError where
  | OutOfResources
  | ResourceNotReady
  | UnsupportedFormat
  | NegotiationFailed (cause : String)
  | Other (cause : String)
deriving DecidableEq, Repr

/-- The `#[error(...)]` display strings of `StatelessBackendError`.
`anyhow!(e)` in `decoder.rs` stringifies the error through this display. -/
def StatelessBackendError.message : StatelessBackendError → String
  | .OutOfResources => "not enough resources to proceed with the operation now"
  | .ResourceNotReady => "this resource is not ready"
  | .UnsupportedFormat => "this format is not supported"
  | .NegotiationFailed c => "negotiation failed: " ++ c
  | .Other c => c

/-- `DecodeError` from `src/decoder/stateless.rs` (lines 46-55): the error type
of the public `decode` method.  The `#[from]` conversions there send
`anyhow::Error` to `DecoderError` and `StatelessBackendError` to
`BackendError`; `vp8/decoder.rs` returns `crate::decoders::Result`, whose
error enum is not among the sources, so its variants are taken from this
enum and the spec's error taxonomy (§6), which lists exactly these three. -/
inductive DecodeError where
  | CheckEvents
  | DecoderError (cause : String)
  | BackendError (e : StatelessBackendError)
deriving DecidableEq, Repr

namespace Vp8

/-- The VP8 frame-header fields consumed by `decoder.rs`.  Widths/heights are
`u16` in the parser, converted with `u32::from`; we use `Nat`. -/
structure Header where
  key_frame : Bool
  show_frame : Bool
  refresh_alternate_frame : Bool
  refresh_golden_frame : Bool
  refresh_last : Bool
  copy_buffer_to_alternate : Nat
  copy_buffer_to_golden : Nat
  width : Nat
  height : Nat
deriving DecidableEq, Repr

/-- `Frame` from the VP8 parser: a parsed header plus its bitstream bytes. -/
structure Frame where
  header : Header
  bitstream : List Nat
deriving DecidableEq, Repr

/-- `NegotiationStatus` from `vp8/decoder.rs` (lines 21-33).  `Possible`
stashes `(timestamp, header, bitstream bytes, parser snapshot)`. -/
inductive NegotiationStatus (P : Type) where
  | NonNegotiated
  | Possible (key_frame : Nat × Header × List Nat × P)
  | Negotiated
deriving DecidableEq

def NegotiationStatus.isPossible {P : Type} : NegotiationStatus P → Bool
  | .Possible _ => true
  | _ => false

def NegotiationStatus.isNegotiated {P : Type} : NegotiationStatus P → Bool
  | .Negotiated => true
  | _ => false

/-- Oracle view of the `DecodedHandle` trait methods that `decoder.rs` uses on
its generic handle type `T`. -/
structure HandleOps (T : Type) where
  display_order : T → Option Nat
  set_display_order : T → Nat → T

/-- Oracle view of the external VP8 `Parser`: `parse_frame` consumes bytes and
yields a header together with the advanced parser state (Rust mutates the
parser in place), or an error string. -/
structure ParserOps (P : Type) where
  parse_frame : P → List Nat → Except String (Header × P)

/-- Oracle view of `dyn StatelessDecoderBackend` for VP8: pure functions over
an abstract backend state `B`.  `submit_picture` receives the header, the
three reference slots, the bitstream, the parser snapshot (standing for the
`segmentation()` / `mb_lf_adjust()` data read from it), the timestamp and the
blocking mode, and yields the decoded handle plus the new backend state. -/
structure BackendOps (T P B : Type) where
  submit_picture : B → Header → Option T → Option T → Option T → List Nat →
    P → Nat → BlockingMode → Except StatelessBackendError (T × B)
  poll : B → BlockingMode → Except StatelessBackendError (List T × B)
  block_on_handle : B → T → Except StatelessBackendError B
  handle_is_ready : B → T → Bool
  new_sequence : B → Header → Except StatelessBackendError B
  num_resources_left : B → Nat
  num_resources_total : B → Nat

/-- The `Decoder<T>` struct from `vp8/decoder.rs` (lines 41-71). -/
structure Decoder (T P B : Type) where
  parser : P
  blocking_mode : BlockingMode
  backend : B
  negotiation_status : NegotiationStatus P
  coded_resolution : Resolution
  ready_queue : List T
  current_display_order : Nat
  last_picture : Option T
  golden_ref_picture : Option T
  alt_ref_picture : Option T
deriving DecidableEq

/-- Result of `update_references`.  The Rust function mutates the three slots
in place and returns `Result<()>`, but `panic!`s on a copy flag outside
`{0,1,2}`; `panic` carries the slot values already written when the panic
fires. -/
inductive RefsOutcome (T : Type) where
  | ok (last golden alt : Option T)
  | panic (last golden alt : Option T)
deriving DecidableEq

/-- `Decoder::update_references` (`vp8/decoder.rs` lines 100-162).
`replace_reference` is `*slot = Some(handle.clone())`; handle cloning is
shared ownership, embedded as reusing the same `T` value.  The integer
`match` arms on the copy flags are embedded as an `if` chain with the same
case order. -/
def update_references {T : Type} (header : Header) (decoded_handle : T)
    (last_picture golden_ref_picture alt_ref_picture : Option T) :
    RefsOutcome T :=
  if header.key_frame then
    .ok (some decoded_handle) (some decoded_handle) (some decoded_handle)
  else
    let altStep : Option (Option T) :=
      if header.refresh_alternate_frame then
        some (some decoded_handle)
      else if header.copy_buffer_to_alternate = 0 then
        some alt_ref_picture
      else if header.copy_buffer_to_alternate = 1 then
        match last_picture with
        | some lp => some (some lp)
        | none => some alt_ref_picture
      else if header.copy_buffer_to_alternate = 2 then
        match golden_ref_picture with
        | some g => some (some g)
        | none => some alt_ref_picture
      else
        none
    match altStep with
    | none => .panic last_picture golden_ref_picture alt_ref_picture
    | some alt1 =>
      let goldenStep : Option (Option T) :=
        if header.refresh_golden_frame then
          some (some decoded_handle)
        else if header.copy_buffer_to_golden = 0 then
          some golden_ref_picture
        else if header.copy_buffer_to_golden = 1 then
          match last_picture with
          | some lp => some (some lp)
          | none => some golden_ref_picture
        else if header.copy_buffer_to_golden = 2 then
          match alt1 with
          | some a => some (some a)
          | none => some golden_ref_picture
        else
          none
      match goldenStep with
      | none => .panic last_picture golden_ref_picture alt1
      | some golden1 =>
        let last1 := if header.refresh_last then some decoded_handle
                     else last_picture
        .ok last1 golden1 alt1

/-- Outcome of an `anyhow::Result<()>` method on `&mut Decoder`: `err` carries
the error display string and the state as mutated so far. -/
inductive StepOutcome (T P B : Type) where
  | panic (s : Decoder T P B)
  | err (e : String) (s : Decoder T P B)
  | ok (s : Decoder T P B)
deriving DecidableEq

def StepOutcome.state {T P B : Type} : StepOutcome T P B → Decoder T P B
  | .panic s => s
  | .err _ s => s
  | .ok s => s

/-- The blocking mode chosen at the top of `Decoder::handle_frame`
(`vp8/decoder.rs` lines 202-208). -/
def chosen_block {T P B : Type} (s : Decoder T P B) : BlockingMode :=
  if s.blocking_mode = .Blocking ∨ s.negotiation_status.isPossible then
    .Blocking
  else
    .NonBlocking

/-- `Decoder::handle_frame` (`vp8/decoder.rs` lines 191-245). -/
def handle_frame {T P B : Type} (hops : HandleOps T) (bops : BackendOps T P B)
    (s : Decoder T P B) (frame : Frame) (timestamp : Nat)
    (queued_parser_state : Option P) : StepOutcome T P B :=
  let psnap := match queued_parser_state with
    | some p => p
    | none => s.parser
  let block := chosen_block s
  let show_frame := frame.header.show_frame
  match bops.submit_picture s.backend frame.header s.last_picture
      s.golden_ref_picture s.alt_ref_picture frame.bitstream psnap
      timestamp block with
  | .error e => .err e.message s
  | .ok (decoded_handle, b1) =>
    let s1 := { s with backend := b1 }
    match update_references frame.header decoded_handle s1.last_picture
        s1.golden_ref_picture s1.alt_ref_picture with
    | .panic l g a =>
      .panic { s1 with last_picture := l, golden_ref_picture := g,
                       alt_ref_picture := a }
    | .ok l g a =>
      let s2 := { s1 with last_picture := l, golden_ref_picture := g,
                          alt_ref_picture := a }
      if show_frame then
        let order := s2.current_display_order
        let dh := hops.set_display_order decoded_handle order
        .ok { s2 with current_display_order := order + 1,
                      ready_queue := s2.ready_queue ++ [dh] }
      else
        .ok s2

/-- `Decoder::block_on_one` (`vp8/decoder.rs` lines 164-170). -/
def block_on_one {T P B : Type} (bops : BackendOps T P B)
    (s : Decoder T P B) : StepOutcome T P B :=
  match s.ready_queue.head? with
  | some handle =>
    match bops.block_on_handle s.backend handle with
    | .error e => .err e.message s
    | .ok b1 => .ok { s with backend := b1 }
  | none => .ok s

/-- `Decoder::get_ready_frames` (`vp8/decoder.rs` lines 173-188): count the
all-ready head of the queue with `take_while`, then split the queue there
(`split_off` + swap), returning the ready head and keeping the rest. -/
def get_ready_frames {T P B : Type} (bops : BackendOps T P B)
    (s : Decoder T P B) : List T × Decoder T P B :=
  let num_ready :=
    (s.ready_queue.takeWhile (fun h => bops.handle_is_ready s.backend h)).length
  (s.ready_queue.take num_ready,
    { s with ready_queue := s.ready_queue.drop num_ready })

/-- `Decoder::negotiation_possible` (`vp8/decoder.rs` lines 247-254): the
frame's dimensions differ from the recorded coded resolution. -/
def negotiation_possible {T P B : Type} (s : Decoder T P B)
    (frame : Frame) : Bool :=
  frame.header.width ≠ s.coded_resolution.width ∨
    frame.header.height ≠ s.coded_resolution.height

/-- Outcome of the public `decode` / `flush` methods. -/
inductive DecodeOutcome (T P B : Type) where
  | panic (s : Decoder T P B)
  | err (e : DecodeError) (s : Decoder T P B)
  | ok (frames : List T) (s : Decoder T P B)
deriving DecidableEq

def DecodeOutcome.state {T P B : Type} : DecodeOutcome T P B → Decoder T P B
  | .panic s => s
  | .err _ s => s
  | .ok _ s => s

def DecodeOutcome.returns_check_events {T P B : Type} :
    DecodeOutcome T P B → Bool
  | .err .CheckEvents _ => true
  | _ => false

/-- The tail of `decode` after the negotiation-status `match` falls through
(`vp8/decoder.rs` lines 313-327): decode the current frame with no parser
override, run admission control when the backend is out of resources, poll
with the configured mode, and deliver the ready head of the queue. -/
def decode_tail {T P B : Type} (hops : HandleOps T) (bops : BackendOps T P B)
    (s : Decoder T P B) (frame : Frame) (timestamp : Nat) :
    DecodeOutcome T P B :=
  match handle_frame hops bops s frame timestamp none with
  | .panic s' => .panic s'
  | .err e s' => .err (.DecoderError e) s'
  | .ok s1 =>
    let afterBlock := if bops.num_resources_left s1.backend = 0 then
        block_on_one bops s1
      else
        .ok s1
    match afterBlock with
    | .panic s' => .panic s'
    | .err e s' => .err (.DecoderError e) s'
    | .ok s2 =>
      match bops.poll s2.backend s2.blocking_mode with
      | .error e => .err (.BackendError e) s2
      | .ok (_, b1) =>
        let s3 := { s2 with backend := b1 }
        let rq := get_ready_frames bops s3
        .ok rq.1 rq.2

/-- `Decoder::decode` (`vp8/decoder.rs` lines 258-327). -/
def decode {T P B : Type} (hops : HandleOps T) (pops : ParserOps P)
    (bops : BackendOps T P B) (s0 : Decoder T P B) (timestamp : Nat)
    (bitstream : List Nat) : DecodeOutcome T P B :=
  match pops.parse_frame s0.parser bitstream with
  | .error e => .err (.DecoderError e) s0
  | .ok (hdr, p1) =>
    let s1 := { s0 with parser := p1 }
    let frame : Frame := { header := hdr, bitstream := bitstream }
    let s2 := if hdr.key_frame ∧ negotiation_possible s1 frame ∧
        s1.negotiation_status.isNegotiated then
        { s1 with negotiation_status := .NonNegotiated }
      else
        s1
    match s2.negotiation_status with
    | .NonNegotiated =>
      if hdr.key_frame then
        match bops.poll s2.backend .Blocking with
        | .error e => .err (.BackendError e) s2
        | .ok (_, b1) =>
          let s3 := { s2 with backend := b1 }
          match bops.new_sequence s3.backend hdr with
          | .error e => .err (.BackendError e) s3
          | .ok b2 =>
            let s4 := { s3 with
              backend := b2
              coded_resolution := { width := hdr.width, height := hdr.height }
              negotiation_status := .Possible (timestamp, hdr, bitstream, p1) }
            .ok [] s4
      else
        .ok [] s2
    | .Possible kf =>
      let kframe : Frame := { header := kf.2.1, bitstream := kf.2.2.1 }
      match handle_frame hops bops s2 kframe kf.1 (some kf.2.2.2) with
      | .panic s' => .panic s'
      | .err e s' => .err (.DecoderError e) s'
      | .ok s3 =>
        decode_tail hops bops { s3 with negotiation_status := .Negotiated }
          frame timestamp
    | .Negotiated => decode_tail hops bops s2 frame timestamp

/-- `Decoder::flush` (`vp8/decoder.rs` lines 329-356): replay the stashed key
frame if negotiation is still `Possible` (without changing the status), then
block-poll and deliver the ready head of the queue. -/
def flush {T P B : Type} (hops : HandleOps T) (bops : BackendOps T P B)
    (s0 : Decoder T P B) : DecodeOutcome T P B :=
  let step1 := match s0.negotiation_status with
    | .Possible kf =>
      handle_frame hops bops s0 { header := kf.2.1, bitstream := kf.2.2.1 }
        kf.1 (some kf.2.2.2)
    | _ => .ok s0
  match step1 with
  | .panic s' => .panic s'
  | .err e s' => .err (.DecoderError e) s'
  | .ok s1 =>
    match bops.poll s1.backend .Blocking with
    | .error e => .err (.BackendError e) s1
    | .ok (_, b1) =>
      let s2 := { s1 with backend := b1 }
      let rq := get_ready_frames bops s2
      .ok rq.1 rq.2

/-- `Decoder::num_resources_left` (`vp8/decoder.rs` lines 362-374). -/
def num_resources_left {T P B : Type} (bops : BackendOps T P B)
    (s : Decoder T P B) : Option Nat :=
  match s.negotiation_status with
  | .NonNegotiated => none
  | .Possible _ => some (bops.num_resources_left s.backend - 1)
  | .Negotiated => some (bops.num_resources_left s.backend)

end Vp8

namespace Vaapi

/-- `libva` constants used by `utils/vaapi.rs`. -/
def VA_RT_FORMAT_YUV420 : Nat := 1

def VA_FOURCC_NV12 : Nat := 0x3231564E

def VA_FOURCC_I420 : Nat := 0x30323449

def VA_ATTRIB_NOT_SUPPORTED : Nat := 0x80000000

def VAEntrypointVLD : Nat := 1

def VASurfaceReady : Nat := 4

/-- `FormatMap` from `utils/vaapi.rs` (lines 37-42). -/
structure FormatMap where
  rt_format : Nat
  va_fourcc : Nat
  decoded_format : DecodedFormat
deriving DecidableEq, Repr

/-- The static `FORMAT_MAP` preference list (`utils/vaapi.rs` lines 46-57). -/
def FORMAT_MAP : List FormatMap :=
  [{ rt_format := VA_RT_FORMAT_YUV420, va_fourcc := VA_FOURCC_NV12,
     decoded_format := .NV12 },
   { rt_format := VA_RT_FORMAT_YUV420, va_fourcc := VA_FOURCC_I420,
     decoded_format := .I420 }]

/-- `libva::VAImageFormat`, reduced to the `fourcc` field, the only one the
embedded code inspects. -/
structure VAImageFormat where
  fourcc : Nat
deriving DecidableEq, Repr

/-- Pure oracle for the `libva::Display` driver object: the advertised image
formats (`query_image_formats`) and the RT-format config attribute returned
by `get_config_attributes` for a `(profile, entrypoint)` pair.  Driver-level
failures of object creation (`create_config` / `create_surfaces` /
`create_context`) are outside the embedding: those calls are modelled as
always succeeding and yielding opaque tokens. -/
structure Display where
  image_formats : List VAImageFormat
  config_attr_rt_value : Int → Nat → Nat

/-- A VA surface token: `create_surfaces` yields `min_num_surfaces` of these
at the coded size. -/
structure Surface where
  id : Nat
  width : Nat
  height : Nat
deriving DecidableEq, Repr

/-- `SurfacePoolHandle` (`utils/vaapi.rs` lines 179-214), with the shared
`Rc<RefCell<VecDeque>>` embedded as a plain list. -/
structure SurfacePoolHandle where
  surfaces : List Surface
  coded_resolution : Resolution
deriving DecidableEq, Repr

/-- `ParsedStreamMetadata` (`utils/vaapi.rs` lines 230-252); `context` and
`config` are opaque driver tokens. -/
structure ParsedStreamMetadata where
  context : Nat
  config : Nat
  surface_pool : SurfacePoolHandle
  min_num_surfaces : Nat
  display_resolution : Resolution
  map_format : VAImageFormat
  rt_format : Nat
  profile : Int
deriving DecidableEq, Repr

/-- `StreamMetadataState` (`utils/vaapi.rs` lines 256-262).  The `display`
field of `Unparsed` is carried separately as a `Display` argument to the
functions below, since it holds driver functions. -/
inductive StreamMetadataState where
  | Unparsed
  | Parsed (m : ParsedStreamMetadata)
deriving DecidableEq, Repr

/-- `StreamInfo` view of a stream header (`utils/vaapi.rs` lines 217-228);
`va_profile` and `rt_format` return `anyhow::Result`. -/
structure StreamInfo where
  va_profile : Except String Int
  rt_format : Except String Nat
  min_num_surfaces : Nat
  coded_size : Nat × Nat
  visible_rect : (Nat × Nat) × (Nat × Nat)

/-- `supported_formats_for_rt_format` (`utils/vaapi.rs` lines 60-103).  The
`HashSet` is embedded as a list in `FORMAT_MAP` order; the code only ever
uses it through membership, so set semantics are preserved. -/
def supported_formats_for_rt_format (d : Display) (rt_format : Nat)
    (profile : Int) (entrypoint : Nat) (image_formats : List VAImageFormat) :
    Except String (List FormatMap) :=
  let attr := d.config_attr_rt_value profile entrypoint
  if attr = VA_ATTRIB_NOT_SUPPORTED ∨ attr &&& rt_format = 0 then
    .error "rt_format not supported for profile and entrypoint"
  else
    .ok ((FORMAT_MAP.filter (fun f => f.rt_format = rt_format)).filter
      (fun entry => image_formats.any (fun fmt => fmt.fourcc = entry.va_fourcc)))

/-- `StreamMetadataState::supported_formats_for_stream`
(`utils/vaapi.rs` lines 295-310). -/
def StreamMetadataState.supported_formats_for_stream (d : Display) :
    StreamMetadataState → Except String (List DecodedFormat)
  | .Unparsed => .error "Stream metadata not parsed yet"
  | .Parsed m =>
    match supported_formats_for_rt_format d m.rt_format m.profile
        VAEntrypointVLD d.image_formats with
    | .error e => .error e
    | .ok formats => .ok (formats.map (fun f => f.decoded_format))

/-- Outcome of `StreamMetadataState::open`: success with the replaced state,
an `anyhow` error, or a panic (from the `.unwrap()` on the image-format
lookup at `utils/vaapi.rs` line 346). -/
inductive OpenOutcome where
  | ok (st : StreamMetadataState)
  | err (e : String)
  | panic
deriving DecidableEq, Repr

/-- `StreamMetadataState::open` (`utils/vaapi.rs` lines 313-393), named
`open'` because `open` is a Lean keyword.  `self` is only read through its
display, passed as `d`; on success the whole state is replaced.  The
`i32::try_from` conversions on the frame size become explicit range checks. -/
def StreamMetadataState.open' (d : Display) (_st : StreamMetadataState)
    (hdr : StreamInfo) (format_map : Option FormatMap) : OpenOutcome :=
  match hdr.va_profile with
  | .error e => .err e
  | .ok va_profile =>
    match hdr.rt_format with
    | .error e => .err e
    | .ok rt_format =>
      let frame_w := hdr.coded_size.1
      let frame_h := hdr.coded_size.2
      let config := 0
      let chosen := match format_map with
        | some fm => some fm
        | none => FORMAT_MAP.find? (fun map => map.rt_format = rt_format)
      match chosen with
      | none => .err ("Unsupported format " ++ toString rt_format)
      | some format_map =>
        match d.image_formats.find?
            (fun f => f.fourcc = format_map.va_fourcc) with
        | none => .panic
        | some map_format =>
          let min_num_surfaces := hdr.min_num_surfaces
          let surfaces := (List.range min_num_surfaces).map
            (fun i => { id := i, width := frame_w, height := frame_h : Surface })
          if frame_w ≥ 2 ^ 31 ∨ frame_h ≥ 2 ^ 31 then
            .err "out of range integral type conversion attempted"
          else
            let context := 0
            let coded_resolution : Resolution :=
              { width := frame_w, height := frame_h }
            let visible_rect := hdr.visible_rect
            let display_resolution : Resolution :=
              { width := visible_rect.2.1 - visible_rect.1.1,
                height := visible_rect.2.2 - visible_rect.1.2 }
            .ok (.Parsed
              { context := context
                config := config
                surface_pool :=
                  { surfaces := surfaces, coded_resolution := coded_resolution }
                min_num_surfaces := min_num_surfaces
                display_resolution := display_resolution
                map_format := map_format
                rt_format := rt_format
                profile := va_profile })

/-- The backend-side `NegotiationStatus<T>` (`utils/vaapi.rs` lines 609-616). -/
inductive NegotiationStatus (T : Type) where
  | NonNegotiated
  | Possible (t : T)
  | Negotiated
deriving DecidableEq

/-- `VaapiBackend<StreamData>` (`utils/vaapi.rs` lines 634-642). -/
structure VaapiBackend (S : Type) where
  metadata_state : StreamMetadataState
  negotiation_status : NegotiationStatus S
deriving DecidableEq

/-- `TryInto<DecodedFormat> for &VAImageFormat`
(`utils/vaapi.rs` lines 591-601), with the error collapsed to `none`. -/
def DecodedFormat.try_from_va (f : VAImageFormat) : Option DecodedFormat :=
  if f.fourcc = VA_FOURCC_NV12 then some .NV12
  else if f.fourcc = VA_FOURCC_I420 then some .I420
  else none

/-- `VaapiBackend::format` (`utils/vaapi.rs` lines 713-720). -/
def VaapiBackend.format {S : Type} (b : VaapiBackend S) :
    Option DecodedFormat :=
  match b.metadata_state with
  | .Unparsed => none
  | .Parsed m => DecodedFormat.try_from_va m.map_format

/-- Outcome of `VaapiBackend::try_format`: success with the updated backend,
a `crate::decoders::Error` (embedded as `DecodeError`, see there), or a panic
(from the `.unwrap()` on the `FORMAT_MAP` lookup, or from `open`). -/
inductive TfOutcome (S : Type) where
  | ok (b : VaapiBackend S)
  | err (e : DecodeError) (b : VaapiBackend S)
  | panic
deriving DecidableEq

/-- `VaapiBackend::try_format` (`utils/vaapi.rs` lines 722-755).  `info`
realises the `for<'a> &'a StreamData: StreamInfo` bound on the stashed
header. -/
def VaapiBackend.try_format {S : Type} (d : Display) (info : S → StreamInfo)
    (b : VaapiBackend S) (format : DecodedFormat) : TfOutcome S :=
  match b.negotiation_status with
  | .Possible header =>
    match b.metadata_state.supported_formats_for_stream d with
    | .error e => .err (.DecoderError e) b
    | .ok supported =>
      if format ∈ supported then
        match FORMAT_MAP.find? (fun map => map.decoded_format = format) with
        | none => .panic
        | some map_format =>
          match b.metadata_state.open' d (info header) (some map_format) with
          | .err e => .err (.DecoderError e) b
          | .panic => .panic
          | .ok st' => .ok { b with metadata_state := st' }
      else
        .err (.BackendError (.NegotiationFailed "Format is unsupported.")) b
  | _ =>
    .err (.BackendError
      (.NegotiationFailed "Negotiation is not possible at this stage")) b

/-- `VaapiBackend::new_sequence` (`utils/vaapi.rs` lines 656-664). -/
def VaapiBackend.new_sequence {S : Type} (d : Display) (info : S → StreamInfo)
    (b : VaapiBackend S) (stream_params : S) :
    TfOutcome S :=
  match b.metadata_state.open' d (info stream_params) none with
  | .err e => .err (.BackendError (.Other e)) b
  | .panic => .panic
  | .ok st' =>
    .ok { metadata_state := st',
          negotiation_status := .Possible stream_params }

/-- `libva::Picture<PictureEnd>` as seen by `vaapi.rs`: the driver's answer to
`query_status` is carried as an oracle value (`VASurfaceStatus` as `Nat`). -/
structure PictureEndTok where
  timestamp : Nat
  surface_id : Nat
  query_status : Except String Nat
deriving DecidableEq, Repr

/-- `libva::Picture<PictureSync>`: a completed picture. -/
structure PictureSyncTok where
  timestamp : Nat
  surface_id : Nat
deriving DecidableEq, Repr

/-- `PictureState` (`utils/vaapi.rs` lines 524-529). -/
inductive PictureState where
  | Ready (picture : PictureSyncTok)
  | Pending (picture : PictureEndTok)
  | Invalid
deriving DecidableEq, Repr

/-- Outcome of `GenericBackendHandle::is_va_ready`: a boolean, a driver error,
or the panic of the `unreachable!()` arm for `Invalid`. -/
inductive VaReadyOutcome where
  | ok (b : Bool)
  | err (e : String)
  | panic
deriving DecidableEq, Repr

/-- `GenericBackendHandle::is_va_ready` (`utils/vaapi.rs` lines 506-514). -/
def is_va_ready : PictureState → VaReadyOutcome
  | .Ready _ => .ok true
  | .Pending picture =>
    match picture.query_status with
    | .ok status => .ok (decide (status = VASurfaceReady))
    | .error e => .err e
  | .Invalid => .panic

/-- `GenericBackendHandle` (`utils/vaapi.rs` lines 400-411), reduced to the
fields the embedded methods read. -/
structure GenericBackendHandle where
  state : PictureState
  coded_resolution : Resolution
  display_resolution : Resolution
  map_format : VAImageFormat
  surface_pool : SurfacePoolHandle
deriving DecidableEq, Repr

/-- The public `DecodedHandle` (`utils/vaapi.rs` lines 118-124). -/
structure DecodedHandle where
  inner : GenericBackendHandle
  display_order : Option Nat
deriving DecidableEq, Repr

/-- `DecodedHandle::is_ready` (`utils/vaapi.rs` lines 169-171):
`self.inner.borrow().is_va_ready().unwrap_or(true)`.  `none` is the panic of
the `Invalid` arm; a driver error is coerced to `true` by `unwrap_or`. -/
def DecodedHandle.is_ready (h : DecodedHandle) : Option Bool :=
  match is_va_ready h.inner.state with
  | .ok b => some b
  | .err _ => some true
  | .panic => none

end Vaapi

/-! ## Concrete instantiations used by witnesses and counterexamples -/

/-- Handle oracle over `Nat` handles: the display order is the handle value. -/
def natHandleOps : Vp8.HandleOps Nat :=
  { display_order := fun h => some h
    set_display_order := fun _ n => n }

/-- Parser oracle that always yields `hdr` and advances its `Nat` state. -/
def constHdrParser (hdr : Vp8.Header) : Vp8.ParserOps Nat :=
  { parse_frame := fun p _ => .ok (hdr, p + 1) }

/-- Backend oracle over `Unit` state whose submissions always succeed with a
fixed `Nat` handle and whose queries report plenty of resources. -/
def stubBackend (h : Nat) : Vp8.BackendOps Nat Nat Unit :=
  { submit_picture := fun b _ _ _ _ _ _ _ _ => .ok (h, b)
    poll := fun b _ => .ok ([], b)
    block_on_handle := fun b _ => .ok b
    handle_is_ready := fun _ _ => true
    new_sequence := fun b _ => .ok b
    num_resources_left := fun _ => 4
    num_resources_total := fun _ => 4 }

/-- Backend oracle whose every submission fails with `OutOfResources`. -/
def oorBackend : Vp8.BackendOps Nat Nat Unit :=
  { submit_picture := fun _ _ _ _ _ _ _ _ _ => .error .OutOfResources
    poll := fun b _ => .ok ([], b)
    block_on_handle := fun b _ => .ok b
    handle_is_ready := fun _ _ => true
    new_sequence := fun b _ => .ok b
    num_resources_left := fun _ => 4
    num_resources_total := fun _ => 4 }

/-- A non-key VP8 header with `copy_buffer_to_alternate = 3`, outside the
legal range (spec scenario 6). -/
def invalidCopyHdr : Vp8.Header :=
  { key_frame := false
    show_frame := true
    refresh_alternate_frame := false
    refresh_golden_frame := false
    refresh_last := true
    copy_buffer_to_alternate := 3
    copy_buffer_to_golden := 0
    width := 320
    height := 240 }

/-- A key-frame header at 320x240. -/
def keyHdr : Vp8.Header :=
  { key_frame := true
    show_frame := true
    refresh_alternate_frame := false
    refresh_golden_frame := false
    refresh_last := false
    copy_buffer_to_alternate := 0
    copy_buffer_to_golden := 0
    width := 320
    height := 240 }

/-- A decoder state in the `Negotiated` status with all three reference slots
occupied, as it stands after at least one decoded key frame. -/
def negotiatedState : Vp8.Decoder Nat Nat Unit :=
  { parser := 0
    blocking_mode := .NonBlocking
    backend := ()
    negotiation_status := .Negotiated
    coded_resolution := { width := 320, height := 240 }
    ready_queue := []
    current_display_order := 3
    last_picture := some 10
    golden_ref_picture := some 11
    alt_ref_picture := some 12 }

/-! ## C1 — out-of-range copy flags -/

/-- Claim C1 counterexample: on a non-key frame whose header carries
`copy_buffer_to_alternate = 3`, `decode` does not return a `DecoderError`
result: `update_references` hits the `panic!` arm
(`vp8/decoder.rs` line 130) and the call panics.  The panic state shows the
reference slots still at their pre-call values. -/
theorem c1_invalid_copy_flag_panics_counterexample :
    Vp8.decode natHandleOps (constHdrParser invalidCopyHdr) (stubBackend 7)
        negotiatedState 5 [0, 1, 2] =
      .panic { negotiatedState with parser := 1 } := by
  decide

/-- Claim C1 amended: for every non-key frame whose header carries
`copy_buffer_to_alternate` outside `{0,1,2}` (with the refresh bit clear, so
the flag is actually inspected), a `decode` call in the `Negotiated` status
whose submission succeeds panics — it does not return a `DecoderError` — and
the panic state carries the three reference slots unchanged from their
pre-call values (only the parser and the backend have advanced).  When
`copy_buffer_to_golden` is the out-of-range flag the alternate slot may
already have been rewritten before the panic, so the slot guarantee is
stated for the alternate flag, the first one checked. -/
theorem c1_invalid_copy_alternate_panics {T P B : Type}
    (hops : Vp8.HandleOps T) (pops : Vp8.ParserOps P)
    (bops : Vp8.BackendOps T P B) (s0 : Vp8.Decoder T P B)
    (ts : Nat) (bs : List Nat) (hdr : Vp8.Header) (p1 : P) (dh : T) (b1 : B)
    (hparse : pops.parse_frame s0.parser bs = .ok (hdr, p1))
    (hkey : hdr.key_frame = false)
    (hra : hdr.refresh_alternate_frame = false)
    (hca : 3 ≤ hdr.copy_buffer_to_alternate)
    (hst : s0.negotiation_status = .Negotiated)
    (hsub : bops.submit_picture s0.backend hdr s0.last_picture
        s0.golden_ref_picture s0.alt_ref_picture bs p1 ts
        (Vp8.chosen_block { s0 with parser := p1 }) = .ok (dh, b1)) :
    Vp8.decode hops pops bops s0 ts bs =
      .panic { s0 with parser := p1, backend := b1 } := by
  have h0 : ¬hdr.copy_buffer_to_alternate = 0 := by omega
  have h1 : ¬hdr.copy_buffer_to_alternate = 1 := by omega
  have h2 : ¬hdr.copy_buffer_to_alternate = 2 := by omega
  rw [hst] at hsub
  simp only [Vp8.decode, hparse, hkey, Bool.false_eq_true, false_and, if_false]
  rw [show ({ s0 with parser := p1 } : Vp8.Decoder T P B).negotiation_status
      = Vp8.NegotiationStatus.Negotiated from hst]
  simp only [Vp8.decode_tail, Vp8.handle_frame, hsub]
  simp only [Vp8.update_references, hkey, Bool.false_eq_true, if_false, hra,
    h0, h1, h2]

/-- Witness for the amended C1 theorem at the concrete inputs of the
counterexample. -/
theorem c1_invalid_copy_alternate_panics_witness :
    Vp8.decode natHandleOps (constHdrParser invalidCopyHdr) (stubBackend 7)
        negotiatedState 5 [0, 1, 2] =
      .panic { negotiatedState with parser := 1, backend := () } :=
  c1_invalid_copy_alternate_panics natHandleOps (constHdrParser invalidCopyHdr)
    (stubBackend 7) negotiatedState 5 [0, 1, 2] invalidCopyHdr 1 7 ()
    rfl rfl rfl (by decide) rfl rfl

/-! ## C4 — reference-slot update rules -/

/-- Claim C4: after every successful frame submission the reference slots are
updated per `update_references`: a key frame sets all three slots to the
decoded handle; otherwise the alternate slot is updated first (refresh bit,
else copy flag 0 = leave / 1 = last / 2 = golden), then the golden slot
(refresh bit, else 0 = leave / 1 = last / 2 = the alternate slot as it stands
after the first step), then `last` iff `refresh_last`.  Slots receive the
very same handle values (handle cloning shares the surface; no new handle is
produced), and `handle_frame` installs exactly the triple computed by
`update_references`. -/
theorem c4_update_references_semantics :
    (∀ (T : Type) (hdr : Vp8.Header) (d : T) (l g a : Option T),
      hdr.key_frame = true →
      Vp8.update_references hdr d l g a = .ok (some d) (some d) (some d))
    ∧ (∀ (T : Type) (hdr : Vp8.Header) (d l0 g0 a0 : T),
      hdr.key_frame = false →
      hdr.copy_buffer_to_alternate ≤ 2 →
      hdr.copy_buffer_to_golden ≤ 2 →
      Vp8.update_references hdr d (some l0) (some g0) (some a0) =
        (let alt1 : Option T :=
          if hdr.refresh_alternate_frame then some d
          else if hdr.copy_buffer_to_alternate = 0 then some a0
          else if hdr.copy_buffer_to_alternate = 1 then some l0
          else some g0
        let golden1 : Option T :=
          if hdr.refresh_golden_frame then some d
          else if hdr.copy_buffer_to_golden = 0 then some g0
          else if hdr.copy_buffer_to_golden = 1 then some l0
          else alt1
        .ok (if hdr.refresh_last then some d else some l0) golden1 alt1))
    ∧ (∀ (T P B : Type) (hops : Vp8.HandleOps T) (bops : Vp8.BackendOps T P B)
      (s : Vp8.Decoder T P B) (frame : Vp8.Frame) (ts : Nat) (q : Option P)
      (dh : T) (b1 : B) (l1 g1 a1 : Option T),
      bops.submit_picture s.backend frame.header s.last_picture
        s.golden_ref_picture s.alt_ref_picture frame.bitstream
        (match q with | some p => p | none => s.parser) ts
        (Vp8.chosen_block s) = .ok (dh, b1) →
      Vp8.update_references frame.header dh s.last_picture
        s.golden_ref_picture s.alt_ref_picture = .ok l1 g1 a1 →
      ∃ s', Vp8.handle_frame hops bops s frame ts q = .ok s' ∧
        s'.last_picture = l1 ∧ s'.golden_ref_picture = g1 ∧
        s'.alt_ref_picture = a1) := by
  refine ⟨?_, ?_, ?_⟩
  · intro T hdr d l g a hkey
    simp [Vp8.update_references, hkey]
  · intro T hdr d l0 g0 a0 hkey hca hcg
    obtain ⟨kf, sf, ra, rg, rl, ca, cg, w, h⟩ := hdr
    simp only at hkey hca hcg
    subst hkey
    interval_cases ca <;> interval_cases cg <;>
      cases ra <;> cases rg <;> cases rl <;>
      simp [Vp8.update_references]
  · intro T P B hops bops s frame ts q dh b1 l1 g1 a1 hsub hrefs
    unfold Vp8.handle_frame
    simp only [hsub, hrefs]
    by_cases hshow : frame.header.show_frame <;> simp [hshow]

/-- Witness for C4 at concrete inputs: a key frame fills all slots; an inter
frame with `copy_buffer_to_golden = 2` copies the freshly refreshed
alternate; `handle_frame` installs the computed triple. -/
theorem c4_update_references_semantics_witness :
    (Vp8.update_references keyHdr 7 (some 1) (some 2) (some 3) =
      .ok (some 7) (some 7) (some 7))
    ∧ (Vp8.update_references
        { keyHdr with key_frame := false, refresh_alternate_frame := true,
                      copy_buffer_to_golden := 2 } 7
        (some 1) (some 2) (some 3) = .ok (some 1) (some 7) (some 7))
    ∧ (∃ s', Vp8.handle_frame natHandleOps (stubBackend 7) negotiatedState
        { header := keyHdr, bitstream := [] } 0 none = .ok s' ∧
        s'.last_picture = some 7 ∧ s'.golden_ref_picture = some 7 ∧
        s'.alt_ref_picture = some 7) :=
  ⟨c4_update_references_semantics.1 Nat keyHdr 7 (some 1) (some 2) (some 3)
      rfl,
    by
      have := c4_update_references_semantics.2.1 Nat
        { keyHdr with key_frame := false, refresh_alternate_frame := true,
                      copy_buffer_to_golden := 2 } 7 1 2 3
        rfl (by decide) (by decide)
      simpa using this,
    c4_update_references_semantics.2.2 Nat Nat Unit natHandleOps
      (stubBackend 7) negotiatedState { header := keyHdr, bitstream := [] }
      0 none 7 () (some 7) (some 7) (some 7) rfl
      (c4_update_references_semantics.1 Nat keyHdr 7 (some 10) (some 11)
        (some 12) rfl)⟩

/-! ## C2 — OutOfResources during decode -/

/-- An ordinary inter frame header with both copy flags in range. -/
def interHdr : Vp8.Header :=
  { key_frame := false
    show_frame := true
    refresh_alternate_frame := false
    refresh_golden_frame := false
    refresh_last := true
    copy_buffer_to_alternate := 0
    copy_buffer_to_golden := 0
    width := 320
    height := 240 }

/-- Claim C2 counterexample: when `submit_picture` fails with
`OutOfResources`, `decode` does not return the `CheckEvents` variant —
`handle_frame` wraps the backend error through `anyhow!(e)`
(`vp8/decoder.rs` line 225), which erases the variant, so the caller sees
`DecoderError` carrying the display string; moreover the parser state has
already been advanced by `parse_frame` before the failing submission. -/
theorem c2_out_of_resources_counterexample :
    (Vp8.decode natHandleOps (constHdrParser interHdr) oorBackend
        negotiatedState 5 [9]).returns_check_events = false
    ∧ Vp8.decode natHandleOps (constHdrParser interHdr) oorBackend
        negotiatedState 5 [9] =
      .err (.DecoderError "not enough resources to proceed with the operation now")
        { negotiatedState with parser := 1 }
    ∧ ({ negotiatedState with parser := 1 } :
        Vp8.Decoder Nat Nat Unit).parser ≠ negotiatedState.parser := by
  decide

/-- Claim C2 amended: whenever the backend's `submit_picture` fails with
`OutOfResources` during a `decode` call (entered from the `Possible` or the
`Negotiated` status, on a frame that does not trigger a resolution reset),
`decode` returns the `DecoderError` variant carrying the stringified backend
error — not `CheckEvents` — and the negotiation status, reference slots,
ready queue, display counter, coded resolution and backend state are all
unchanged by the call; the parser state, however, has already been advanced
by `parse_frame` before the submission, so retrying the same
`(timestamp, bitstream)` relies on the parser, not the decoder, state. -/
theorem c2_out_of_resources_returns_decoder_error {T P B : Type}
    (hops : Vp8.HandleOps T) (pops : Vp8.ParserOps P)
    (bops : Vp8.BackendOps T P B) (s0 : Vp8.Decoder T P B)
    (ts : Nat) (bs : List Nat) (hdr : Vp8.Header) (p1 : P)
    (hparse : pops.parse_frame s0.parser bs = .ok (hdr, p1))
    (hsub : ∀ b h l g a bs' p ts' m,
      bops.submit_picture b h l g a bs' p ts' m = .error .OutOfResources)
    (hst : (∃ kf, s0.negotiation_status = .Possible kf) ∨
      (s0.negotiation_status = .Negotiated ∧
        (hdr.key_frame = false ∨ (hdr.width = s0.coded_resolution.width ∧
          hdr.height = s0.coded_resolution.height)))) :
    Vp8.decode hops pops bops s0 ts bs =
      .err (.DecoderError StatelessBackendError.OutOfResources.message)
        { s0 with parser := p1 } := by
  obtain ⟨p0, bm, bk, ns, cr, rq, cdo, lp, gp, ap⟩ := s0
  simp only at hparse hst ⊢
  rcases hst with ⟨kf, hposs⟩ | ⟨hneg, hside⟩
  · subst hposs
    simp [Vp8.decode, hparse, Vp8.NegotiationStatus.isNegotiated,
      Vp8.handle_frame, hsub, StatelessBackendError.message]
  · subst hneg
    rcases hside with hkf | ⟨hw, hh⟩
    · simp [Vp8.decode, hparse, hkf, Vp8.decode_tail, Vp8.handle_frame, hsub,
        StatelessBackendError.message]
    · simp [Vp8.decode, hparse, Vp8.negotiation_possible, hw, hh,
        Vp8.decode_tail, Vp8.handle_frame, hsub, StatelessBackendError.message]

/-- Witness for the amended C2 theorem at the counterexample's inputs. -/
theorem c2_out_of_resources_returns_decoder_error_witness :
    Vp8.decode natHandleOps (constHdrParser interHdr) oorBackend
        negotiatedState 5 [9] =
      .err (.DecoderError StatelessBackendError.OutOfResources.message)
        { negotiatedState with parser := 1 } :=
  c2_out_of_resources_returns_decoder_error natHandleOps
    (constHdrParser interHdr) oorBackend negotiatedState 5 [9] interHdr 1
    rfl (fun _ _ _ _ _ _ _ _ _ => rfl)
    (Or.inr ⟨rfl, Or.inl rfl⟩)

/-! ## C3 — key frame while NonNegotiated -/

/-- Claim C3: for every key frame parsed while the status is `NonNegotiated`
— including a key frame with new dimensions while `Negotiated`, which first
resets the status — `decode` block-drains the backend (`poll(Blocking)`),
calls `new_sequence` with the header, records the header's dimensions as
`coded_resolution`, stashes `(timestamp, header, bitstream, parser
snapshot)` in `Possible`, and returns the empty list; all other decoder
fields are untouched. -/
theorem c3_key_frame_stashes_and_returns_empty {T P B : Type}
    (hops : Vp8.HandleOps T) (pops : Vp8.ParserOps P)
    (bops : Vp8.BackendOps T P B) (s0 : Vp8.Decoder T P B)
    (ts : Nat) (bs : List Nat) (hdr : Vp8.Header) (p1 : P)
    (polled : List T) (b1 b2 : B)
    (hparse : pops.parse_frame s0.parser bs = .ok (hdr, p1))
    (hkey : hdr.key_frame = true)
    (hst : s0.negotiation_status = .NonNegotiated ∨
      (s0.negotiation_status = .Negotiated ∧
        (hdr.width ≠ s0.coded_resolution.width ∨
          hdr.height ≠ s0.coded_resolution.height)))
    (hpoll : bops.poll s0.backend .Blocking = .ok (polled, b1))
    (hns : bops.new_sequence b1 hdr = .ok b2) :
    Vp8.decode hops pops bops s0 ts bs =
      .ok [] { s0 with
                parser := p1
                backend := b2
                coded_resolution := { width := hdr.width, height := hdr.height }
                negotiation_status := .Possible (ts, hdr, bs, p1) } := by
  obtain ⟨p0, bm, bk, ns, cr, rq, cdo, lp, gp, ap⟩ := s0
  simp only at hparse hst hpoll hns ⊢
  rcases hst with hnn | ⟨hneg, hdim⟩
  · subst hnn
    simp [Vp8.decode, hparse, hkey, Vp8.NegotiationStatus.isNegotiated,
      hpoll, hns]
  · subst hneg
    rcases hdim with hw | hh
    · simp [Vp8.decode, hparse, hkey, Vp8.negotiation_possible, hw,
        Vp8.NegotiationStatus.isNegotiated, hpoll, hns]
    · simp [Vp8.decode, hparse, hkey, Vp8.negotiation_possible, hh,
        Vp8.NegotiationStatus.isNegotiated, hpoll, hns]

/-- A fresh decoder as built by `Decoder::new`. -/
def freshState : Vp8.Decoder Nat Nat Unit :=
  { parser := 0
    blocking_mode := .NonBlocking
    backend := ()
    negotiation_status := .NonNegotiated
    coded_resolution := { width := 0, height := 0 }
    ready_queue := []
    current_display_order := 0
    last_picture := none
    golden_ref_picture := none
    alt_ref_picture := none }

/-- Witness for C3: a key frame fed to a fresh decoder is stashed and the
call returns no frames. -/
theorem c3_key_frame_stashes_and_returns_empty_witness :
    Vp8.decode natHandleOps (constHdrParser keyHdr) (stubBackend 7)
        freshState 5 [1, 2, 3] =
      .ok [] { freshState with
                parser := 1
                backend := ()
                coded_resolution := { width := 320, height := 240 }
                negotiation_status := .Possible (5, keyHdr, [1, 2, 3], 1) } :=
  c3_key_frame_stashes_and_returns_empty natHandleOps (constHdrParser keyHdr)
    (stubBackend 7) freshState 5 [1, 2, 3] keyHdr 1 [] () ()
    rfl rfl (Or.inl rfl) rfl rfl

/-! ## C5 — blocking-mode override while Possible -/

/-- A backend over `Nat` handles whose state records the blocking mode of
every submission, used to observe which mode `handle_frame` passes to
`submit_picture`. -/
def recBackend (P : Type) : Vp8.BackendOps Nat P (List BlockingMode) :=
  { submit_picture := fun b _ _ _ _ _ _ _ mode => .ok (0, b ++ [mode])
    poll := fun b _ => .ok ([], b)
    block_on_handle := fun b _ => .ok b
    handle_is_ready := fun _ _ => false
    new_sequence := fun b _ => .ok b
    num_resources_left := fun _ => 1
    num_resources_total := fun _ => 1 }

/-- With the recording backend, `handle_frame` always records exactly the
mode computed by `chosen_block`, whatever the outcome. -/
theorem recBackend_handle_frame_state {P : Type} (hops : Vp8.HandleOps Nat)
    (s : Vp8.Decoder Nat P (List BlockingMode)) (frame : Vp8.Frame)
    (ts : Nat) (q : Option P) :
    ((Vp8.handle_frame hops (recBackend P) s frame ts q).state).backend =
      s.backend ++ [Vp8.chosen_block s] := by
  unfold Vp8.handle_frame
  simp only [recBackend]
  split
  · simp [Vp8.StepOutcome.state]
  · by_cases hshow : frame.header.show_frame <;>
      simp [hshow, Vp8.StepOutcome.state]

/-- With the recording backend, `handle_frame` on a key frame always
succeeds, records the chosen mode, and preserves the configured blocking
mode. -/
theorem recBackend_handle_frame_key_ok {P : Type} (hops : Vp8.HandleOps Nat)
    (s : Vp8.Decoder Nat P (List BlockingMode)) (frame : Vp8.Frame)
    (ts : Nat) (q : Option P) (hkey : frame.header.key_frame = true) :
    ∃ s', Vp8.handle_frame hops (recBackend P) s frame ts q = .ok s' ∧
      s'.backend = s.backend ++ [Vp8.chosen_block s] ∧
      s'.blocking_mode = s.blocking_mode := by
  unfold Vp8.handle_frame
  simp only [recBackend, Vp8.update_references, hkey, if_true]
  by_cases hshow : frame.header.show_frame <;> simp [hshow]

/-- Claim C5: every submission performed while the negotiation status is
`Possible` passes `Blocking` to `submit_picture` regardless of the
configured mode; in `Negotiated` the configured mode is passed.  In
particular a `decode` call that replays the stashed key frame from
`Possible` submits it blocking and then submits the new frame with the
configured mode. -/
theorem c5_possible_forces_blocking_mode :
    (∀ (P : Type) (hops : Vp8.HandleOps Nat)
      (s : Vp8.Decoder Nat P (List BlockingMode)) (frame : Vp8.Frame)
      (ts : Nat) (q : Option P),
      s.negotiation_status.isPossible = true →
      ((Vp8.handle_frame hops (recBackend P) s frame ts q).state).backend =
        s.backend ++ [.Blocking])
    ∧ (∀ (P : Type) (hops : Vp8.HandleOps Nat)
      (s : Vp8.Decoder Nat P (List BlockingMode)) (frame : Vp8.Frame)
      (ts : Nat) (q : Option P),
      s.negotiation_status = .Negotiated →
      ((Vp8.handle_frame hops (recBackend P) s frame ts q).state).backend =
        s.backend ++ [s.blocking_mode])
    ∧ (∀ (P : Type) (hops : Vp8.HandleOps Nat) (pops : Vp8.ParserOps P)
      (s : Vp8.Decoder Nat P (List BlockingMode)) (ts : Nat) (bs : List Nat)
      (hdr : Vp8.Header) (p1 : P) (kf : Nat × Vp8.Header × List Nat × P),
      pops.parse_frame s.parser bs = .ok (hdr, p1) →
      s.negotiation_status = .Possible kf →
      kf.2.1.key_frame = true →
      ((Vp8.decode hops pops (recBackend P) s ts bs).state).backend =
        s.backend ++ [.Blocking, s.blocking_mode]) := by
  refine ⟨?_, ?_, ?_⟩
  · intro P hops s frame ts q hposs
    rw [recBackend_handle_frame_state]
    unfold Vp8.chosen_block
    simp [hposs]
  · intro P hops s frame ts q hneg
    rw [recBackend_handle_frame_state]
    unfold Vp8.chosen_block
    rw [hneg]
    cases hbm : s.blocking_mode <;>
      simp [hbm, Vp8.NegotiationStatus.isPossible]
  · intro P hops pops s ts bs hdr p1 kf hparse hposs hkfkey
    obtain ⟨p0, bm, bk, ns, cr, rq, cdo, lp, gp, ap⟩ := s
    simp only at hparse hposs ⊢
    subst hposs
    obtain ⟨s3, hhf, hbk3, hbm3⟩ := recBackend_handle_frame_key_ok hops
      { parser := p1, blocking_mode := bm, backend := bk,
        negotiation_status := .Possible kf, coded_resolution := cr,
        ready_queue := rq, current_display_order := cdo, last_picture := lp,
        golden_ref_picture := gp, alt_ref_picture := ap }
      { header := kf.2.1, bitstream := kf.2.2.1 } kf.1 (some kf.2.2.2) hkfkey
    have hcb : Vp8.chosen_block
        ({ parser := p1, blocking_mode := bm, backend := bk,
           negotiation_status := .Possible kf, coded_resolution := cr,
           ready_queue := rq, current_display_order := cdo,
           last_picture := lp, golden_ref_picture := gp,
           alt_ref_picture := ap } :
          Vp8.Decoder Nat P (List BlockingMode)) = .Blocking := by
      unfold Vp8.chosen_block
      simp [Vp8.NegotiationStatus.isPossible]
    rw [hcb] at hbk3
    simp only at hbk3
    simp only [Vp8.decode, hparse, Vp8.NegotiationStatus.isNegotiated,
      Bool.false_eq_true, and_false, if_false, hhf]
    unfold Vp8.decode_tail
    have hrec := recBackend_handle_frame_state hops
      { s3 with negotiation_status := .Negotiated }
      { header := hdr, bitstream := bs } ts none
    have hchosen : Vp8.chosen_block
        ({ s3 with negotiation_status := .Negotiated } :
          Vp8.Decoder Nat P (List BlockingMode)) = bm := by
      unfold Vp8.chosen_block
      cases hbm : s3.blocking_mode <;>
        simp_all [Vp8.NegotiationStatus.isPossible]
    rw [hchosen] at hrec
    simp only at hrec
    cases hout : Vp8.handle_frame hops (recBackend P)
        { s3 with negotiation_status := .Negotiated }
        { header := hdr, bitstream := bs } ts none with
    | panic s' =>
      rw [hout] at hrec
      simp only [Vp8.StepOutcome.state] at hrec
      simp [hrec, hbk3, Vp8.DecodeOutcome.state]
    | err e s' =>
      rw [hout] at hrec
      simp only [Vp8.StepOutcome.state] at hrec
      simp [hrec, hbk3, Vp8.DecodeOutcome.state]
    | ok s1 =>
      rw [hout] at hrec
      simp only [Vp8.StepOutcome.state] at hrec
      simp [recBackend, Vp8.block_on_one, Vp8.get_ready_frames,
        Vp8.DecodeOutcome.state, hrec, hbk3]

/-- Witness for C5: replaying a stashed key frame from `Possible` on a
decoder configured non-blocking records modes `[Blocking, NonBlocking]`. -/
theorem c5_possible_forces_blocking_mode_witness :
    ((Vp8.decode natHandleOps (constHdrParser interHdr) (recBackend Nat)
      { parser := 0, blocking_mode := .NonBlocking, backend := [],
        negotiation_status := .Possible (0, keyHdr, [], 0),
        coded_resolution := { width := 320, height := 240 },
        ready_queue := [], current_display_order := 0,
        last_picture := none, golden_ref_picture := none,
        alt_ref_picture := none } 5 [9]).state).backend =
      [.Blocking, .NonBlocking] :=
  c5_possible_forces_blocking_mode.2.2 Nat natHandleOps
    (constHdrParser interHdr)
    { parser := 0, blocking_mode := .NonBlocking, backend := [],
      negotiation_status := .Possible (0, keyHdr, [], 0),
      coded_resolution := { width := 320, height := 240 },
      ready_queue := [], current_display_order := 0,
      last_picture := none, golden_ref_picture := none,
      alt_ref_picture := none } 5 [9] interHdr 1 (0, keyHdr, [], 0)
    rfl rfl rfl

/-! ## C7 — display-order assignment -/

/-- Claim C7: `handle_frame` assigns a display order to the decoded handle
iff the header's `show_frame` bit is set, taking the current counter value;
the counter increases by exactly one per shown frame and never decreases, so
the new order is strictly greater than every previously delivered order
(which all lie below the counter); and the queued orders stay the contiguous
run `a, a+1, ..., counter-1` — from a fresh decoder (empty queue, counter 0)
the assigned orders are exactly `0, 1, 2, ...`. -/
theorem c7_display_order_assignment {T P B : Type}
    (hops : Vp8.HandleOps T) (bops : Vp8.BackendOps T P B)
    (s s' : Vp8.Decoder T P B) (frame : Vp8.Frame) (ts : Nat) (q : Option P)
    (horder : ∀ h n, hops.display_order (hops.set_display_order h n) = some n)
    (hok : Vp8.handle_frame hops bops s frame ts q = .ok s') :
    (frame.header.show_frame = true →
      s'.current_display_order = s.current_display_order + 1 ∧
      ∃ dh, s'.ready_queue = s.ready_queue ++ [dh] ∧
        hops.display_order dh = some s.current_display_order ∧
        ∀ prev : List Nat, (∀ o ∈ prev, o < s.current_display_order) →
          ∀ o ∈ prev, ∃ n, hops.display_order dh = some n ∧ o < n)
    ∧ (frame.header.show_frame = false →
      s'.current_display_order = s.current_display_order ∧
      s'.ready_queue = s.ready_queue)
    ∧ s.current_display_order ≤ s'.current_display_order
    ∧ (∀ a, s.ready_queue.map hops.display_order =
        (List.range' a s.ready_queue.length).map some →
      a + s.ready_queue.length = s.current_display_order →
      s'.ready_queue.map hops.display_order =
        (List.range' a s'.ready_queue.length).map some ∧
      a + s'.ready_queue.length = s'.current_display_order) := by
  unfold Vp8.handle_frame at hok
  simp only at hok
  split at hok
  · exact Vp8.StepOutcome.noConfusion hok
  · rename_i dh0 b1 hsub
    split at hok
    · exact Vp8.StepOutcome.noConfusion hok
    · rename_i l g a hrefs
      split at hok
      · rename_i hshow
        simp only [Vp8.StepOutcome.ok.injEq] at hok
        subst hok
        refine ⟨?_, ?_, ?_, ?_⟩
        · intro _
          refine ⟨rfl, hops.set_display_order dh0 s.current_display_order,
            rfl, horder _ _, ?_⟩
          intro prev hprev o ho
          exact ⟨s.current_display_order, horder _ _, hprev o ho⟩
        · intro hcontra
          rw [hshow] at hcontra
          cases hcontra
        · exact Nat.le_succ _
        · intro a' hmap hlen
          constructor
          · simp only [List.map_append, List.length_append,
              List.length_singleton, List.range'_concat, one_mul, hlen,
              List.map_singleton, hmap, horder]
          · simp only [List.length_append, List.length_singleton]
            omega
      · rename_i hshow
        simp only [Vp8.StepOutcome.ok.injEq] at hok
        subst hok
        refine ⟨?_, ?_, Nat.le_refl _, ?_⟩
        · intro hcontra
          exact absurd hcontra hshow
        · intro _
          exact ⟨rfl, rfl⟩
        · intro a' hmap hlen
          exact ⟨hmap, hlen⟩

/-- The decoder state produced by `handle_frame` on `negotiatedState` for a
shown inter frame that refreshes only the last slot. -/
def c7resState : Vp8.Decoder Nat Nat Unit :=
  { negotiatedState with
      last_picture := some 7
      ready_queue := [3]
      current_display_order := 4 }

/-- Witness for C7 at a concrete shown frame: the counter advances from 3 to
4 and the queued handle carries display order 3. -/
theorem c7_display_order_assignment_witness :
    c7resState.current_display_order =
      negotiatedState.current_display_order + 1 ∧
    ∃ dh, c7resState.ready_queue = negotiatedState.ready_queue ++ [dh] ∧
      natHandleOps.display_order dh =
        some negotiatedState.current_display_order ∧
      ∀ prev : List Nat,
        (∀ o ∈ prev, o < negotiatedState.current_display_order) →
        ∀ o ∈ prev, ∃ n, natHandleOps.display_order dh = some n ∧ o < n :=
  (c7_display_order_assignment natHandleOps (stubBackend 7) negotiatedState
    c7resState { header := interHdr, bitstream := [] } 0 none
    (fun _ _ => rfl) (by decide)).1 rfl

/-! ## C6 — delivery is the ready head of the queue -/

theorem take_length_takeWhile {α : Type} (p : α → Bool) (l : List α) :
    l.take (l.takeWhile p).length = l.takeWhile p := by
  induction l with
  | nil => rfl
  | cons x xs ih =>
    by_cases h : p x <;> simp [List.takeWhile_cons, h, ih]

theorem drop_length_takeWhile {α : Type} (p : α → Bool) (l : List α) :
    l.drop (l.takeWhile p).length = l.dropWhile p := by
  induction l with
  | nil => rfl
  | cons x xs ih =>
    by_cases h : p x <;>
      simp [List.takeWhile_cons, List.dropWhile_cons, h, ih]

/-- `get_ready_frames` splits the queue at the end of its all-ready head. -/
theorem get_ready_frames_eq {T P B : Type} (bops : Vp8.BackendOps T P B)
    (s : Vp8.Decoder T P B) :
    Vp8.get_ready_frames bops s =
      (s.ready_queue.takeWhile (fun h => bops.handle_is_ready s.backend h),
        { s with
          ready_queue :=
            s.ready_queue.dropWhile
              (fun h => bops.handle_is_ready s.backend h) }) := by
  simp only [Vp8.get_ready_frames]
  rw [take_length_takeWhile, drop_length_takeWhile]

/-- When `decode_tail` succeeds, the delivered list is the maximal all-ready
head of the queue as it stood at delivery, in queue order. -/
theorem decode_tail_delivery {T P B : Type} (hops : Vp8.HandleOps T)
    (bops : Vp8.BackendOps T P B) (s : Vp8.Decoder T P B) (frame : Vp8.Frame)
    (ts : Nat) (frames : List T) (s' : Vp8.Decoder T P B)
    (hok : Vp8.decode_tail hops bops s frame ts = .ok frames s') :
    frames = (frames ++ s'.ready_queue).takeWhile
        (fun h => bops.handle_is_ready s'.backend h) ∧
      s'.ready_queue = (frames ++ s'.ready_queue).dropWhile
        (fun h => bops.handle_is_ready s'.backend h) := by
  unfold Vp8.decode_tail at hok
  simp only at hok
  split at hok
  · exact Vp8.DecodeOutcome.noConfusion hok
  · exact Vp8.DecodeOutcome.noConfusion hok
  · rename_i s1 hhf
    split at hok
    · exact Vp8.DecodeOutcome.noConfusion hok
    · exact Vp8.DecodeOutcome.noConfusion hok
    · rename_i s2 hblk
      split at hok
      · exact Vp8.DecodeOutcome.noConfusion hok
      · rename_i pr b1 hpoll
        rw [get_ready_frames_eq] at hok
        simp only [Vp8.DecodeOutcome.ok.injEq] at hok
        obtain ⟨hframes, hstate⟩ := hok
        subst hframes
        subst hstate
        simp only [List.takeWhile_append_dropWhile]
        trivial

/-- When `flush` succeeds, the delivered list is the maximal all-ready head
of the queue as it stood at delivery. -/
theorem flush_delivery {T P B : Type} (hops : Vp8.HandleOps T)
    (bops : Vp8.BackendOps T P B) (s : Vp8.Decoder T P B)
    (frames : List T) (s' : Vp8.Decoder T P B)
    (hok : Vp8.flush hops bops s = .ok frames s') :
    frames = (frames ++ s'.ready_queue).takeWhile
        (fun h => bops.handle_is_ready s'.backend h) ∧
      s'.ready_queue = (frames ++ s'.ready_queue).dropWhile
        (fun h => bops.handle_is_ready s'.backend h) := by
  unfold Vp8.flush at hok
  simp only at hok
  split at hok
  · exact Vp8.DecodeOutcome.noConfusion hok
  · exact Vp8.DecodeOutcome.noConfusion hok
  · rename_i s1 hstep
    split at hok
    · exact Vp8.DecodeOutcome.noConfusion hok
    · rename_i pr b1 hpoll
      rw [get_ready_frames_eq] at hok
      simp only [Vp8.DecodeOutcome.ok.injEq] at hok
      obtain ⟨hframes, hstate⟩ := hok
      subst hframes
      subst hstate
      simp only [List.takeWhile_append_dropWhile]
      trivial

/-- When `decode` succeeds, the delivered list is either empty (the early
returns of the `NonNegotiated` branch) or the maximal all-ready head of the
queue at delivery. -/
theorem decode_delivery {T P B : Type} (hops : Vp8.HandleOps T)
    (pops : Vp8.ParserOps P) (bops : Vp8.BackendOps T P B)
    (s : Vp8.Decoder T P B) (ts : Nat) (bs : List Nat)
    (frames : List T) (s' : Vp8.Decoder T P B)
    (hok : Vp8.decode hops pops bops s ts bs = .ok frames s') :
    frames = [] ∨
      (frames = (frames ++ s'.ready_queue).takeWhile
          (fun h => bops.handle_is_ready s'.backend h) ∧
        s'.ready_queue = (frames ++ s'.ready_queue).dropWhile
          (fun h => bops.handle_is_ready s'.backend h)) := by
  unfold Vp8.decode at hok
  simp only at hok
  split at hok
  · exact Vp8.DecodeOutcome.noConfusion hok
  · rename_i hdr p1 hparse
    split at hok
    · -- NonNegotiated: both returns deliver []
      split at hok
      · split at hok
        · exact Vp8.DecodeOutcome.noConfusion hok
        · split at hok
          · exact Vp8.DecodeOutcome.noConfusion hok
          · simp only [Vp8.DecodeOutcome.ok.injEq] at hok
            exact Or.inl hok.1.symm
      · simp only [Vp8.DecodeOutcome.ok.injEq] at hok
        exact Or.inl hok.1.symm
    · -- Possible: replay then fall through to decode_tail
      split at hok
      · exact Vp8.DecodeOutcome.noConfusion hok
      · exact Vp8.DecodeOutcome.noConfusion hok
      · exact Or.inr (decode_tail_delivery _ _ _ _ _ _ _ hok)
    · -- Negotiated: fall through to decode_tail
      exact Or.inr (decode_tail_delivery _ _ _ _ _ _ _ hok)

/-- A fresh decoder whose ready queue still holds one ready frame. -/
def c6State : Vp8.Decoder Nat Nat Unit :=
  { freshState with ready_queue := [5] }

/-- Claim C6 counterexample: a `decode` call taking the early
`NonNegotiated` return delivers `[]` even though the ready queue's maximal
all-ready head is `[5]` — the returned list is a ready prefix of the queue
but not the maximal one. -/
theorem c6_maximal_prefix_counterexample :
    Vp8.decode natHandleOps (constHdrParser interHdr) (stubBackend 7)
        c6State 0 [4] = .ok [] { c6State with parser := 1 }
    ∧ ({ c6State with parser := 1 } :
        Vp8.Decoder Nat Nat Unit).ready_queue.takeWhile
        (fun h => (stubBackend 7).handle_is_ready () h) = [5] := by
  decide

/-- Claim C6 amended: every list delivered by `decode` or `flush` is a
ready-only head of the ready queue taken in queue order — every delivered
handle satisfies the backend readiness check and a later queued handle is
never delivered before an earlier one.  `flush`, and every `decode` call
that reaches the delivery step, delivers the MAXIMAL such head
(`get_ready_frames` splits the queue exactly at the first non-ready
handle); the early returns of `decode`'s `NonNegotiated` branch deliver the
empty list even when ready frames are queued. -/
theorem c6_delivery_ready_queue_order :
    (∀ (T P B : Type) (bops : Vp8.BackendOps T P B) (s : Vp8.Decoder T P B),
      Vp8.get_ready_frames bops s =
        (s.ready_queue.takeWhile (fun h => bops.handle_is_ready s.backend h),
          { s with
            ready_queue :=
              s.ready_queue.dropWhile
                (fun h => bops.handle_is_ready s.backend h) }))
    ∧ (∀ (T P B : Type) (hops : Vp8.HandleOps T) (pops : Vp8.ParserOps P)
      (bops : Vp8.BackendOps T P B) (s : Vp8.Decoder T P B) (ts : Nat)
      (bs : List Nat) (frames : List T) (s' : Vp8.Decoder T P B),
      Vp8.decode hops pops bops s ts bs = .ok frames s' →
      frames = [] ∨
        (frames = (frames ++ s'.ready_queue).takeWhile
            (fun h => bops.handle_is_ready s'.backend h) ∧
          s'.ready_queue = (frames ++ s'.ready_queue).dropWhile
            (fun h => bops.handle_is_ready s'.backend h)))
    ∧ (∀ (T P B : Type) (hops : Vp8.HandleOps T)
      (bops : Vp8.BackendOps T P B) (s : Vp8.Decoder T P B)
      (frames : List T) (s' : Vp8.Decoder T P B),
      Vp8.flush hops bops s = .ok frames s' →
      frames = (frames ++ s'.ready_queue).takeWhile
          (fun h => bops.handle_is_ready s'.backend h) ∧
        s'.ready_queue = (frames ++ s'.ready_queue).dropWhile
          (fun h => bops.handle_is_ready s'.backend h))
    ∧ (∀ (T P B : Type) (hops : Vp8.HandleOps T) (pops : Vp8.ParserOps P)
      (bops : Vp8.BackendOps T P B) (s : Vp8.Decoder T P B) (ts : Nat)
      (bs : List Nat) (frames : List T) (s' : Vp8.Decoder T P B),
      Vp8.decode hops pops bops s ts bs = .ok frames s' →
      ∀ h ∈ frames, bops.handle_is_ready s'.backend h = true) := by
  refine ⟨?_, ?_, ?_, ?_⟩
  · intro T P B bops s
    exact get_ready_frames_eq bops s
  · intro T P B hops pops bops s ts bs frames s' hok
    exact decode_delivery hops pops bops s ts bs frames s' hok
  · intro T P B hops bops s frames s' hok
    exact flush_delivery hops bops s frames s' hok
  · intro T P B hops pops bops s ts bs frames s' hok h hmem
    rcases decode_delivery hops pops bops s ts bs frames s' hok with hnil | ⟨htw, _⟩
    · subst hnil
      cases hmem
    · rw [htw] at hmem
      exact List.mem_takeWhile_imp hmem

/-- Witness for the amended C6 theorem: on the counterexample's inputs the
delivered list is empty, matching the left disjunct, and a `flush` of a
decoder with one ready queued frame delivers exactly that frame. -/
theorem c6_delivery_ready_queue_order_witness :
    ([] = ([] : List Nat) ∨
      (([] : List Nat) = (([] : List Nat) ++
          ({ c6State with parser := 1 } :
            Vp8.Decoder Nat Nat Unit).ready_queue).takeWhile
          (fun h => (stubBackend 7).handle_is_ready () h) ∧
        ({ c6State with parser := 1 } :
          Vp8.Decoder Nat Nat Unit).ready_queue = (([] : List Nat) ++
          ({ c6State with parser := 1 } :
            Vp8.Decoder Nat Nat Unit).ready_queue).dropWhile
          (fun h => (stubBackend 7).handle_is_ready () h)))
    ∧ ([5] = (([5] : List Nat) ++
        ({ c6State with ready_queue := [] } :
          Vp8.Decoder Nat Nat Unit).ready_queue).takeWhile
        (fun h => (stubBackend 7).handle_is_ready () h) ∧
      ({ c6State with ready_queue := [] } :
        Vp8.Decoder Nat Nat Unit).ready_queue = (([5] : List Nat) ++
        ({ c6State with ready_queue := [] } :
          Vp8.Decoder Nat Nat Unit).ready_queue).dropWhile
        (fun h => (stubBackend 7).handle_is_ready () h)) :=
  ⟨c6_delivery_ready_queue_order.2.1 Nat Nat Unit natHandleOps
      (constHdrParser interHdr) (stubBackend 7) c6State 0 [4] []
      { c6State with parser := 1 } (by decide),
    c6_delivery_ready_queue_order.2.2.1 Nat Nat Unit natHandleOps
      (stubBackend 7) c6State [5] { c6State with ready_queue := [] }
      (by decide)⟩

/-! ## C10 — is_ready coerces driver errors to true -/

/-- Claim C10: when the driver's status query on a still-`Pending` picture
fails, the public `is_ready()` reports `true` (`unwrap_or(true)`), so
`is_ready() = true` does not imply the decode completed: the state is not
`Ready`. -/
theorem c10_is_ready_error_coercion
    (h : Vaapi.DecodedHandle) (p : Vaapi.PictureEndTok) (e : String)
    (hst : h.inner.state = .Pending p) (hq : p.query_status = .error e) :
    h.is_ready = some true ∧ ∀ pic, h.inner.state ≠ .Ready pic := by
  constructor
  · simp [Vaapi.DecodedHandle.is_ready, Vaapi.is_va_ready, hst, hq]
  · intro pic hcontra
    rw [hst] at hcontra
    exact Vaapi.PictureState.noConfusion hcontra

/-- A pending handle whose status query fails. -/
def erroredPendingHandle : Vaapi.DecodedHandle :=
  { inner :=
      { state := .Pending
          { timestamp := 0, surface_id := 1,
            query_status := .error "driver error" }
        coded_resolution := { width := 320, height := 240 }
        display_resolution := { width := 320, height := 240 }
        map_format := { fourcc := Vaapi.VA_FOURCC_NV12 }
        surface_pool :=
          { surfaces := [], coded_resolution := { width := 320, height := 240 } } }
    display_order := none }

/-- Witness for C10 at a concrete pending handle with an errored query. -/
theorem c10_is_ready_error_coercion_witness :
    erroredPendingHandle.is_ready = some true ∧
      ∀ pic, erroredPendingHandle.inner.state ≠ .Ready pic :=
  c10_is_ready_error_coercion erroredPendingHandle
    { timestamp := 0, surface_id := 1, query_status := .error "driver error" }
    "driver error" rfl rfl

/-! ## C9 — format selection in open -/

/-- A driver advertising no image formats at all. -/
def noImgDisplay : Vaapi.Display :=
  { image_formats := []
    config_attr_rt_value := fun _ _ => Vaapi.VA_RT_FORMAT_YUV420 }

/-- A driver advertising both NV12 and I420 image formats and supporting the
YUV420 RT format for every profile/entrypoint pair. -/
def c9Display : Vaapi.Display :=
  { image_formats := [{ fourcc := Vaapi.VA_FOURCC_NV12 },
      { fourcc := Vaapi.VA_FOURCC_I420 }]
    config_attr_rt_value := fun _ _ => Vaapi.VA_RT_FORMAT_YUV420 }

/-- Stream info of a 320x240 YUV420 stream. -/
def yuvStreamInfo : Vaapi.StreamInfo :=
  { va_profile := .ok 0
    rt_format := .ok Vaapi.VA_RT_FORMAT_YUV420
    min_num_surfaces := 4
    coded_size := (320, 240)
    visible_rect := ((0, 0), (320, 240)) }

/-- Stream info whose RT format matches no preference-list entry. -/
def badRtStreamInfo : Vaapi.StreamInfo :=
  { yuvStreamInfo with rt_format := .ok 7 }

/-- Claim C9 counterexample: when the chosen entry's fourcc is absent from
the driver's advertised image formats, `open` does not fail with an
`UnsupportedFormat` error — the `.unwrap()` at `utils/vaapi.rs` line 346
panics. -/
theorem c9_open_missing_fourcc_panics_counterexample :
    Vaapi.StreamMetadataState.open' noImgDisplay .Unparsed yuvStreamInfo
      none = .panic := by
  decide

/-- Claim C9 amended: `open(hdr, format_map)` uses the explicit `FormatMap`
argument when one is provided, and otherwise the first entry of the static
`FORMAT_MAP` preference list whose `rt_format` equals the stream's; it
resolves that entry's fourcc among the driver's advertised image formats.
When no preference-list entry matches the rt_format it fails with an
"Unsupported format" error; but when the fourcc is absent from the driver's
image formats it PANICS (an `unwrap()` of `None`) instead of returning an
error. -/
theorem c9_open_format_selection :
    (∀ (d : Vaapi.Display) (st : Vaapi.StreamMetadataState)
      (hdr : Vaapi.StreamInfo) (fm : Vaapi.FormatMap) (prof : Int) (rt : Nat)
      (imgf : Vaapi.VAImageFormat),
      hdr.va_profile = .ok prof → hdr.rt_format = .ok rt →
      d.image_formats.find? (fun f => f.fourcc = fm.va_fourcc) = some imgf →
      hdr.coded_size.1 < 2 ^ 31 → hdr.coded_size.2 < 2 ^ 31 →
      ∃ m, Vaapi.StreamMetadataState.open' d st hdr (some fm) =
        .ok (.Parsed m) ∧ m.map_format = imgf)
    ∧ (∀ (d : Vaapi.Display) (st : Vaapi.StreamMetadataState)
      (hdr : Vaapi.StreamInfo) (prof : Int) (rt : Nat),
      hdr.va_profile = .ok prof → hdr.rt_format = .ok rt →
      Vaapi.FORMAT_MAP.find? (fun map => map.rt_format = rt) = none →
      Vaapi.StreamMetadataState.open' d st hdr none =
        .err ("Unsupported format " ++ toString rt))
    ∧ (∀ (d : Vaapi.Display) (st : Vaapi.StreamMetadataState)
      (hdr : Vaapi.StreamInfo) (prof : Int) (rt : Nat)
      (entry : Vaapi.FormatMap),
      hdr.va_profile = .ok prof → hdr.rt_format = .ok rt →
      Vaapi.FORMAT_MAP.find? (fun map => map.rt_format = rt) = some entry →
      d.image_formats.find? (fun f => f.fourcc = entry.va_fourcc) = none →
      Vaapi.StreamMetadataState.open' d st hdr none = .panic)
    ∧ (∀ (d : Vaapi.Display) (st : Vaapi.StreamMetadataState)
      (hdr : Vaapi.StreamInfo) (prof : Int) (rt : Nat)
      (entry : Vaapi.FormatMap) (imgf : Vaapi.VAImageFormat),
      hdr.va_profile = .ok prof → hdr.rt_format = .ok rt →
      Vaapi.FORMAT_MAP.find? (fun map => map.rt_format = rt) = some entry →
      d.image_formats.find? (fun f => f.fourcc = entry.va_fourcc) =
        some imgf →
      hdr.coded_size.1 < 2 ^ 31 → hdr.coded_size.2 < 2 ^ 31 →
      ∃ m, Vaapi.StreamMetadataState.open' d st hdr none =
        .ok (.Parsed m) ∧ m.map_format = imgf) := by
  refine ⟨?_, ?_, ?_, ?_⟩
  · intro d st hdr fm prof rt imgf hva hrt himg hw hh
    have hsz : ¬(hdr.coded_size.1 ≥ 2 ^ 31 ∨ hdr.coded_size.2 ≥ 2 ^ 31) := by
      omega
    unfold Vaapi.StreamMetadataState.open'
    rw [hva, hrt]
    simp only
    rw [himg]
    simp only
    rw [if_neg hsz]
    exact ⟨_, rfl, rfl⟩
  · intro d st hdr prof rt hva hrt hfind
    unfold Vaapi.StreamMetadataState.open'
    rw [hva, hrt]
    simp only
    rw [hfind]
  · intro d st hdr prof rt entry hva hrt hfind himg
    unfold Vaapi.StreamMetadataState.open'
    rw [hva, hrt]
    simp only
    rw [hfind]
    simp only
    rw [himg]
  · intro d st hdr prof rt entry imgf hva hrt hfind himg hw hh
    have hsz : ¬(hdr.coded_size.1 ≥ 2 ^ 31 ∨ hdr.coded_size.2 ≥ 2 ^ 31) := by
      omega
    unfold Vaapi.StreamMetadataState.open'
    rw [hva, hrt]
    simp only
    rw [hfind]
    simp only
    rw [himg]
    simp only
    rw [if_neg hsz]
    exact ⟨_, rfl, rfl⟩

/-- Witness for the amended C9 theorem: the default selection resolves NV12
on a driver that advertises it, an unknown RT format yields the
"Unsupported format" error, and a driver without image formats makes `open`
panic. -/
theorem c9_open_format_selection_witness :
    (∃ m, Vaapi.StreamMetadataState.open' c9Display .Unparsed yuvStreamInfo
        none = .ok (.Parsed m) ∧
      m.map_format = { fourcc := Vaapi.VA_FOURCC_NV12 })
    ∧ Vaapi.StreamMetadataState.open' c9Display .Unparsed badRtStreamInfo
        none = .err ("Unsupported format " ++ toString 7)
    ∧ Vaapi.StreamMetadataState.open' noImgDisplay .Unparsed yuvStreamInfo
        none = .panic :=
  ⟨c9_open_format_selection.2.2.2 c9Display .Unparsed yuvStreamInfo 0
      Vaapi.VA_RT_FORMAT_YUV420
      { rt_format := Vaapi.VA_RT_FORMAT_YUV420,
        va_fourcc := Vaapi.VA_FOURCC_NV12, decoded_format := .NV12 }
      { fourcc := Vaapi.VA_FOURCC_NV12 } rfl rfl (by decide) (by decide)
      (by decide) (by decide),
    c9_open_format_selection.2.1 c9Display .Unparsed badRtStreamInfo 0 7
      rfl rfl (by decide),
    c9_open_format_selection.2.2.1 noImgDisplay .Unparsed yuvStreamInfo 0
      Vaapi.VA_RT_FORMAT_YUV420
      { rt_format := Vaapi.VA_RT_FORMAT_YUV420,
        va_fourcc := Vaapi.VA_FOURCC_NV12, decoded_format := .NV12 }
      rfl rfl (by decide) rfl⟩

/-! ## C8 — try_format negotiation contract -/

/-- On success, `open` with an explicit entry yields a parsed metadata whose
`map_format` is the driver descriptor found for the entry's fourcc. -/
theorem open_ok_parsed (d : Vaapi.Display) (st : Vaapi.StreamMetadataState)
    (hdr : Vaapi.StreamInfo) (fm : Vaapi.FormatMap)
    (st' : Vaapi.StreamMetadataState)
    (hok : Vaapi.StreamMetadataState.open' d st hdr (some fm) = .ok st') :
    ∃ m, st' = .Parsed m ∧
      d.image_formats.find? (fun f => f.fourcc = fm.va_fourcc) =
        some m.map_format := by
  unfold Vaapi.StreamMetadataState.open' at hok
  simp only at hok
  split at hok
  · exact Vaapi.OpenOutcome.noConfusion hok
  · split at hok
    · exact Vaapi.OpenOutcome.noConfusion hok
    · split at hok
      · exact Vaapi.OpenOutcome.noConfusion hok
      · rename_i imgf hfind
        split at hok
        · exact Vaapi.OpenOutcome.noConfusion hok
        · simp only [Vaapi.OpenOutcome.ok.injEq] at hok
          exact ⟨_, hok.symm, hfind⟩

/-- Claim C8: `try_format(f)` fails with `NegotiationFailed` when the status
is not `Possible`, and when `f` is not in the set computed by
`supported_formats_for_stream`, in both cases leaving the backend (and so
the configuration) unchanged; when it succeeds, `format()` returns
`some f`, and keeps doing so as long as the metadata state is not replaced
by the next sequence change. -/
theorem c8_try_format_negotiation :
    (∀ (S : Type) (d : Vaapi.Display) (info : S → Vaapi.StreamInfo)
      (b : Vaapi.VaapiBackend S) (f : DecodedFormat),
      (b.negotiation_status = .NonNegotiated ∨
        b.negotiation_status = .Negotiated) →
      b.try_format d info f =
        .err (.BackendError (.NegotiationFailed
          "Negotiation is not possible at this stage")) b)
    ∧ (∀ (S : Type) (d : Vaapi.Display) (info : S → Vaapi.StreamInfo)
      (b : Vaapi.VaapiBackend S) (f : DecodedFormat) (hdr : S)
      (supported : List DecodedFormat),
      b.negotiation_status = .Possible hdr →
      b.metadata_state.supported_formats_for_stream d = .ok supported →
      f ∉ supported →
      b.try_format d info f =
        .err (.BackendError (.NegotiationFailed "Format is unsupported.")) b)
    ∧ (∀ (S : Type) (d : Vaapi.Display) (info : S → Vaapi.StreamInfo)
      (b b' : Vaapi.VaapiBackend S) (f : DecodedFormat),
      b.try_format d info f = .ok b' →
      b'.format = some f ∧
        ∀ b'' : Vaapi.VaapiBackend S,
          b''.metadata_state = b'.metadata_state → b''.format = some f) := by
  refine ⟨?_, ?_, ?_⟩
  · intro S d info b f hst
    unfold Vaapi.VaapiBackend.try_format
    rcases hst with h | h <;> rw [h]
  · intro S d info b f hdr supported hposs hsup hnotmem
    unfold Vaapi.VaapiBackend.try_format
    rw [hposs, hsup]
    simp only
    rw [if_neg hnotmem]
  · intro S d info b b' f hok
    unfold Vaapi.VaapiBackend.try_format at hok
    split at hok
    · rename_i hdr hposs
      split at hok
      · exact Vaapi.TfOutcome.noConfusion hok
      · rename_i supported hsup
        split at hok
        · split at hok
          · exact Vaapi.TfOutcome.noConfusion hok
          · rename_i entry hfind
            split at hok
            · exact Vaapi.TfOutcome.noConfusion hok
            · exact Vaapi.TfOutcome.noConfusion hok
            · rename_i st' hopen
              simp only [Vaapi.TfOutcome.ok.injEq] at hok
              obtain ⟨m, hparsed, himg⟩ := open_ok_parsed d b.metadata_state
                (info hdr) _ st' hopen
              have hfc : m.map_format.fourcc = entry.va_fourcc := by
                have hp := List.find?_some himg
                simpa using hp
              have hfmt : b'.format = some f := by
                subst hok
                subst hparsed
                cases f with
                | NV12 =>
                  have hdec : Vaapi.FORMAT_MAP.find?
                      (fun map => map.decoded_format = DecodedFormat.NV12) =
                      some ⟨Vaapi.VA_RT_FORMAT_YUV420, Vaapi.VA_FOURCC_NV12,
                        DecodedFormat.NV12⟩ := by decide
                  rw [hdec] at hfind
                  injection hfind with hentry
                  subst hentry
                  simp only [Vaapi.VaapiBackend.format,
                    Vaapi.DecodedFormat.try_from_va, hfc]
                  decide
                | I420 =>
                  have hdec : Vaapi.FORMAT_MAP.find?
                      (fun map => map.decoded_format = DecodedFormat.I420) =
                      some ⟨Vaapi.VA_RT_FORMAT_YUV420, Vaapi.VA_FOURCC_I420,
                        DecodedFormat.I420⟩ := by decide
                  rw [hdec] at hfind
                  injection hfind with hentry
                  subst hentry
                  simp only [Vaapi.VaapiBackend.format,
                    Vaapi.DecodedFormat.try_from_va, hfc]
                  decide
              exact ⟨hfmt, fun b'' hmeta => by
                have hsame : b''.format = b'.format := by
                  unfold Vaapi.VaapiBackend.format
                  rw [hmeta]
                rw [hsame, hfmt]⟩
        · exact Vaapi.TfOutcome.noConfusion hok
    · exact Vaapi.TfOutcome.noConfusion hok

/-- Parsed metadata of a 320x240 NV12 stream, as recorded after the initial
`new_sequence`. -/
def c8Metadata : Vaapi.ParsedStreamMetadata :=
  { context := 0
    config := 0
    surface_pool :=
      { surfaces := [], coded_resolution := { width := 320, height := 240 } }
    min_num_surfaces := 4
    display_resolution := { width := 320, height := 240 }
    map_format := { fourcc := Vaapi.VA_FOURCC_NV12 }
    rt_format := Vaapi.VA_RT_FORMAT_YUV420
    profile := 0 }

/-- A backend awaiting format confirmation (`Possible`). -/
def c8Backend : Vaapi.VaapiBackend Unit :=
  { metadata_state := .Parsed c8Metadata
    negotiation_status := .Possible () }

/-- The backend state after `try_format(I420)` reopens the metadata with the
I420 entry. -/
def c8After : Vaapi.VaapiBackend Unit :=
  { metadata_state := .Parsed
      { context := 0
        config := 0
        surface_pool :=
          { surfaces := [{ id := 0, width := 320, height := 240 },
              { id := 1, width := 320, height := 240 },
              { id := 2, width := 320, height := 240 },
              { id := 3, width := 320, height := 240 }]
            coded_resolution := { width := 320, height := 240 } }
        min_num_surfaces := 4
        display_resolution := { width := 320, height := 240 }
        map_format := { fourcc := Vaapi.VA_FOURCC_I420 }
        rt_format := Vaapi.VA_RT_FORMAT_YUV420
        profile := 0 }
    negotiation_status := .Possible () }

/-- Witness for C8: a successful `try_format(I420)` on a backend in
`Possible` makes `format()` report I420. -/
theorem c8_try_format_negotiation_witness :
    c8After.format = some DecodedFormat.I420 :=
  (c8_try_format_negotiation.2.2 Unit c9Display (fun _ => yuvStreamInfo)
    c8Backend c8After .I420 (by decide)).1

end CrosCodecs
